import Mathlib

/-!
Shallow embedding of `src/sleeper_server.py` (Sleeper Fantasy Football MCP
server).  Every tool function of the server is modelled as a pure Lean
function from its string arguments, the process-wide default league id
(the module-level `LEAGUE_ID = os.environ.get("SLEEPER_LEAGUE_ID", "")`),
and the outcome that the single HTTP fetch would have, to a `ToolRun`
recording the list of URLs actually requested and the returned text.

Modelling conventions:
* JSON objects become Lean structures whose fields are `Option`-valued,
  `none` standing for an absent key (`dict.get` with a default becomes
  `Option.getD`).
* JSON scalar fields that are only ever interpolated into the output text
  are modelled by their rendered decimal/string form (`Option String`),
  since the source never computes with them.
* Python truthiness on fetched collections (`if not xs`) identifies a
  JSON `null` with the empty list; both short-circuit identically in the
  source, so the embedding uses plain lists for fetched arrays.
* Python string building with `result += ...` loops becomes `List.foldl`
  over the same items with string append, starting from the same prefix.
* `str.strip()` becomes `pyStrip` (ASCII whitespace) and `int(...)`
  becomes `pyInt` (optional surrounding whitespace, optional sign, digits
  with single underscores between them), matching CPython on the ASCII
  inputs this server deals in.
-/

/-- Characters removed by Python `str.strip()` (ASCII whitespace). -/
def isPySpace (c : Char) : Bool :=
  c = ' ' || c = '\t' || c = '\n' || c = '\x0d' || c = '\x0b' || c = '\x0c'

/-- Python `s.strip()`: drop leading and trailing whitespace. -/
def pyStrip (s : String) : String :=
  ⟨((s.data.dropWhile isPySpace).reverse.dropWhile isPySpace).reverse⟩

/-- Digit run with single underscores allowed between digits, as accepted by
Python `int()`: accumulates the value, `none` on any malformed run. -/
def pyDigits : Nat → List Char → Option Nat
  | acc, [] => some acc
  | acc, c :: rest =>
    if c.isDigit then pyDigits (acc * 10 + (c.toNat - 48)) rest
    else if c = '_' then
      match rest with
      | c' :: rest' =>
        if c'.isDigit then pyDigits (acc * 10 + (c'.toNat - 48)) rest' else none
      | [] => none
    else none

/-- Nonempty digit run (underscore grouping allowed after the first digit). -/
def pyDigitsNE : List Char → Option Nat
  | [] => none
  | c :: rest => if c.isDigit then pyDigits (c.toNat - 48) rest else none

/-- Python `int(s)` on an ASCII string: strip whitespace, optional sign,
then a digit run; `none` models a raised `ValueError`. -/
def pyInt (s : String) : Option Int :=
  match (pyStrip s).data with
  | '+' :: rest => (pyDigitsNE rest).map (fun n => (n : Int))
  | '-' :: rest => (pyDigitsNE rest).map (fun n => -(n : Int))
  | cs => (pyDigitsNE cs).map (fun n => (n : Int))

/-- Python `s.upper()` for the ASCII strings stored in transaction types. -/
def pyUpper (s : String) : String := ⟨s.data.map Char.toUpper⟩

/-- Concatenation of the rendered blocks of a list, in order. -/
def strConcatMap (f : α → String) : List α → String
  | [] => ""
  | x :: r => f x ++ strConcatMap f r

/-- A Python `for x in xs: result += f(x)` loop starting from `acc`. -/
def strFold (f : α → String) (acc : String) (l : List α) : String :=
  l.foldl (fun a x => a ++ f x) acc

/-- Indexed rendering, modelling `for i, x in enumerate(xs, i0): result += f(i, x)`. -/
def enumFold (f : Nat → α → String) : String → Nat → List α → String
  | acc, _, [] => acc
  | acc, i, x :: r => enumFold f (acc ++ f i x) (i + 1) r

/-- Indexed block concatenation (the right-associated reading of `enumFold`). -/
def enumConcat (f : Nat → α → String) : Nat → List α → String
  | _, [] => ""
  | i, x :: r => f i x ++ enumConcat f (i + 1) r

theorem strFold_eq_append (f : α → String) (l : List α) :
    ∀ acc, strFold f acc l = acc ++ strConcatMap f l := by
  induction l with
  | nil => intro acc; simp [strFold, strConcatMap]
  | cons x r ih =>
    intro acc
    simp only [strFold, List.foldl_cons, strConcatMap]
    rw [show (List.foldl (fun a x => a ++ f x) (acc ++ f x) r) = strFold f (acc ++ f x) r from rfl]
    rw [ih, String.append_assoc]

theorem enumFold_eq_append (f : Nat → α → String) (l : List α) :
    ∀ acc i, enumFold f acc i l = acc ++ enumConcat f i l := by
  induction l with
  | nil => intro acc i; simp [enumFold, enumConcat]
  | cons x r ih =>
    intro acc i
    simp only [enumFold, enumConcat]
    rw [ih, String.append_assoc]

/-- Outcome of the single `fetch_json` call an operation performs: the parsed
JSON payload on success, an `httpx.HTTPStatusError` (non-2xx status plus raw
body) or any other request failure, mirroring the two `except` arms of
`fetch_json`. -/
inductive FetchOutcome (α : Type) where
  | ok (value : α)
  | httpError (status : Nat) (body : String)
  | requestFailed (msg : String)

/-- Observable behaviour of one tool invocation: the URLs requested (this
server performs at most one GET per call) and the returned text. -/
structure ToolRun where
  requests : List String
  output : String
deriving DecidableEq

/-- The shared shape of every tool body: build the URL, `await fetch_json(url)`
inside `try`, format on success, and stringify the raised exception into a
`"❌ Error: ..."` report otherwise (the messages raised by `fetch_json`). -/
def runFetch (url : String) (o : FetchOutcome α) (onOk : α → String) : ToolRun :=
  match o with
  | .ok v => ⟨[url], onOk v⟩
  | .httpError s b => ⟨[url], "❌ Error: API Error " ++ toString s ++ ": " ++ b⟩
  | .requestFailed m => ⟨[url], "❌ Error: Request failed: " ++ m⟩

/-- `BASE_URL` from the source. -/
def BASE_URL : String := "https://api.sleeper.app/v1"

/-- `lid = league_id.strip() or LEAGUE_ID.strip()`: Python `or` keeps the
left operand when it is truthy (nonempty). -/
def resolveLid (league_id cfg : String) : String :=
  if pyStrip league_id ≠ "" then pyStrip league_id else pyStrip cfg

/-- Sleeper user object as consumed by `format_user` (lines 44-50). -/
structure UserObj where
  display_name : Option String
  username : Option String
  user_id : Option String
  avatar : Option String
deriving DecidableEq

/-- `format_user` (lines 44-50); `none` is a falsy payload (`null`/`{}`). -/
def format_user : Option UserObj → String
  | none => "No user data"
  | some u =>
    "👤 User: " ++ u.display_name.getD "N/A" ++ " (@" ++ u.username.getD "N/A" ++ ")\n"
    ++ "- User ID: " ++ u.user_id.getD "N/A" ++ "\n"
    ++ "- Avatar: " ++ u.avatar.getD "N/A"

/-- `league["settings"]` sub-object used by `get_league` (lines 140-147). -/
structure LeagueSettings where
  playoff_teams : Option String
  waiver_type : Option String
  trade_deadline : Option String
deriving DecidableEq

/-- Sleeper league object as consumed by `format_league` (lines 53-63);
`settings = none` covers an absent, null or empty (falsy) settings dict. -/
structure LeagueObj where
  name : Option String
  league_id : Option String
  season : Option String
  status : Option String
  sport : Option String
  total_rosters : Option String
  draft_id : Option String
  settings : Option LeagueSettings
deriving DecidableEq

/-- `format_league` (lines 53-63); `none` is a falsy payload (`null`/`{}`). -/
def format_league : Option LeagueObj → String
  | none => "No league data"
  | some l =>
    "🏈 League: " ++ l.name.getD "N/A" ++ "\n"
    ++ "- League ID: " ++ l.league_id.getD "N/A" ++ "\n"
    ++ "- Season: " ++ l.season.getD "N/A" ++ "\n"
    ++ "- Status: " ++ l.status.getD "N/A" ++ "\n"
    ++ "- Sport: " ++ l.sport.getD "N/A" ++ "\n"
    ++ "- Total Rosters: " ++ l.total_rosters.getD "N/A" ++ "\n"
    ++ "- Draft ID: " ++ l.draft_id.getD "N/A"

/-- `roster["settings"]` fields read with a `0` default (lines 71-73). -/
structure RosterSettings where
  wins : Option String
  losses : Option String
  ties : Option String
  fpts : Option String
  fpts_decimal : Option String
  fpts_against : Option String
  fpts_against_decimal : Option String
deriving DecidableEq

/-- Roster object as consumed by `format_roster` (lines 66-75). -/
structure Roster where
  roster_id : Option String
  owner_id : Option String
  settings : Option RosterSettings
  players : Option (List String)
  starters : Option (List String)
deriving DecidableEq

/-- `format_roster` (lines 66-75): record line, points, player count, and the
starters line truncated to the first 5 names with a `"..."` marker. -/
def format_roster (roster : Roster) (index : Nat) : String :=
  let settings := roster.settings.getD ⟨none, none, none, none, none, none, none⟩
  "📊 Roster " ++ toString (index + 1) ++ " (ID: " ++ roster.roster_id.getD "N/A" ++ ")\n"
  ++ "- Owner: " ++ roster.owner_id.getD "N/A" ++ "\n"
  ++ "- Record: " ++ settings.wins.getD "0" ++ "W - " ++ settings.losses.getD "0"
  ++ "L - " ++ settings.ties.getD "0" ++ "T\n"
  ++ "- Points For: " ++ settings.fpts.getD "0" ++ "." ++ settings.fpts_decimal.getD "0" ++ "\n"
  ++ "- Points Against: " ++ settings.fpts_against.getD "0" ++ "."
  ++ settings.fpts_against_decimal.getD "0" ++ "\n"
  ++ "- Players: " ++ toString (roster.players.getD []).length ++ " total\n"
  ++ "- Starters: " ++ String.intercalate ", " ((roster.starters.getD []).take 5)
  ++ (if (roster.starters.getD []).length > 5 then "..." else "")

/-- `get_user` (lines 81-95). -/
def get_user (username : String) (o : FetchOutcome (Option UserObj)) : ToolRun :=
  if pyStrip username = "" then ⟨[], "❌ Error: Username or user ID is required"⟩
  else
    runFetch (BASE_URL ++ "/user/" ++ username) o
      (fun user => "✅ User Found:\n" ++ format_user user)

/-- `get_user_leagues` (lines 98-122). -/
def get_user_leagues (user_id sport season : String)
    (o : FetchOutcome (List (Option LeagueObj))) : ToolRun :=
  if pyStrip user_id = "" then ⟨[], "❌ Error: User ID is required"⟩
  else
    runFetch (BASE_URL ++ "/user/" ++ user_id ++ "/leagues/" ++ sport ++ "/" ++ season) o
      (fun leagues =>
        if leagues.isEmpty then
          "📭 No leagues found for user " ++ user_id ++ " in " ++ sport ++ " " ++ season
        else
          enumFold (fun i league => toString i ++ ". " ++ format_league league ++ "\n\n")
            ("🏈 Found " ++ toString leagues.length ++ " league(s):\n\n") 1 leagues)

/-- `get_league` (lines 125-152).  When the fetched league is `null`,
`format_league` still renders, but the subsequent `league.get("settings")`
raises `AttributeError`, which the handler stringifies. -/
def get_league (league_id cfg : String) (o : FetchOutcome (Option LeagueObj)) : ToolRun :=
  let lid := resolveLid league_id cfg
  if lid = "" then
    ⟨[], "❌ Error: League ID is required (provide league_id or set SLEEPER_LEAGUE_ID environment variable)"⟩
  else
    runFetch (BASE_URL ++ "/league/" ++ lid) o
      (fun league =>
        match league with
        | none => "❌ Error: \'NoneType\' object has no attribute \'get\'"
        | some lg =>
          let base := "✅ League Details:\n" ++ format_league (some lg) ++ "\n\n"
          match lg.settings with
          | none => base
          | some st =>
            base ++ "⚙️ Settings:\n"
            ++ "- Playoff Teams: " ++ st.playoff_teams.getD "N/A" ++ "\n"
            ++ "- Waiver Type: " ++ st.waiver_type.getD "N/A" ++ "\n"
            ++ "- Trade Deadline: Week " ++ st.trade_deadline.getD "N/A" ++ "\n")

/-- `get_league_rosters` (lines 155-178). -/
def get_league_rosters (league_id cfg : String) (o : FetchOutcome (List Roster)) : ToolRun :=
  let lid := resolveLid league_id cfg
  if lid = "" then
    ⟨[], "❌ Error: League ID is required (provide league_id or set SLEEPER_LEAGUE_ID environment variable)"⟩
  else
    runFetch (BASE_URL ++ "/league/" ++ lid ++ "/rosters") o
      (fun rosters =>
        if rosters.isEmpty then "📭 No rosters found for league " ++ lid
        else
          enumFold (fun i roster => format_roster roster i ++ "\n\n")
            ("📊 Found " ++ toString rosters.length ++ " roster(s):\n\n") 0 rosters)

/-- `user["metadata"]` sub-object used by `get_league_users` (line 199). -/
structure UserMeta where
  team_name : Option String
deriving DecidableEq

/-- League-member user object consumed by `get_league_users` (lines 198-204);
`is_owner` is the truthiness of `user.get("is_owner")`. -/
structure LeagueUser where
  display_name : Option String
  username : Option String
  user_id : Option String
  is_owner : Bool
  metadata : Option UserMeta
deriving DecidableEq

/-- One numbered block of `get_league_users` (lines 199-204). -/
def leagueUserBlock (i : Nat) (user : LeagueUser) : String :=
  let metadata := user.metadata.getD ⟨none⟩
  let team_name := metadata.team_name.getD "No team name"
  let is_owner := if user.is_owner then "👑 Commissioner" else ""
  toString i ++ ". " ++ user.display_name.getD "N/A" ++ " (@" ++ user.username.getD "N/A"
  ++ ") " ++ is_owner ++ "\n"
  ++ "   Team: " ++ team_name ++ "\n"
  ++ "   User ID: " ++ user.user_id.getD "N/A" ++ "\n\n"

/-- `get_league_users` (lines 181-209). -/
def get_league_users (league_id cfg : String) (o : FetchOutcome (List LeagueUser)) : ToolRun :=
  let lid := resolveLid league_id cfg
  if lid = "" then
    ⟨[], "❌ Error: League ID is required (provide league_id or set SLEEPER_LEAGUE_ID environment variable)"⟩
  else
    runFetch (BASE_URL ++ "/league/" ++ lid ++ "/users") o
      (fun users =>
        if users.isEmpty then "📭 No users found for league " ++ lid
        else
          enumFold leagueUserBlock
            ("👥 Found " ++ toString users.length ++ " user(s):\n\n") 1 users)

/-- One matchup entry as consumed by `get_league_matchups` (lines 231-248). -/
structure MatchupEntry where
  matchup_id : Option Int
  roster_id : Option String
  points : Option String
  custom_points : Option String
  starters : Option (List String)
deriving DecidableEq

/-- The dict-building step of lines 233-236: append the entry to the group of
its `matchup_id`, or add a new group at the end (Python dicts preserve
insertion order). -/
def addToGroup : List (Option Int × List MatchupEntry) → Option Int → MatchupEntry →
    List (Option Int × List MatchupEntry)
  | [], mid, m => [(mid, [m])]
  | (k, g) :: rest, mid, m =>
    if k = mid then (k, g ++ [m]) :: rest
    else (k, g) :: addToGroup rest mid m

/-- `matchup_dict` after the loop of lines 231-236, as an ordered association
list (insertion order = first appearance of each distinct `matchup_id`). -/
def groupMatchups (l : List MatchupEntry) : List (Option Int × List MatchupEntry) :=
  l.foldl (fun d m => addToGroup d m.matchup_id m) []

/-- How Python displays the grouping key in `f"⚔️ Matchup {mid}:"`. -/
def midDisplay : Option Int → String
  | none => "None"
  | some n => toString n

/-- The two `result +=` lines per team (lines 242-248). -/
def teamBlock (team : MatchupEntry) : String :=
  let points := team.points.getD "0"
  let points_str :=
    match team.custom_points with
    | some c => c ++ " (override)"
    | none => points
  "  Roster " ++ team.roster_id.getD "N/A" ++ ": " ++ points_str ++ " pts\n"
  ++ "    Starters: " ++ String.intercalate ", " ((team.starters.getD []).take 5)
  ++ (if (team.starters.getD []).length > 5 then "..." else "") ++ "\n"

/-- One `⚔️ Matchup {mid}:` group block (lines 239-249). -/
def matchupGroupBlock (p : Option Int × List MatchupEntry) : String :=
  strFold teamBlock ("⚔️ Matchup " ++ midDisplay p.1 ++ ":\n") p.2 ++ "\n"

/-- `get_league_matchups` (lines 212-254). -/
def get_league_matchups (league_id week cfg : String)
    (o : FetchOutcome (List MatchupEntry)) : ToolRun :=
  let lid := resolveLid league_id cfg
  if lid = "" then
    ⟨[], "❌ Error: League ID is required (provide league_id or set SLEEPER_LEAGUE_ID environment variable)"⟩
  else if pyStrip week = "" then ⟨[], "❌ Error: Week number is required"⟩
  else
    runFetch (BASE_URL ++ "/league/" ++ lid ++ "/matchups/" ++ week) o
      (fun matchups =>
        if matchups.isEmpty then
          "📭 No matchups found for league " ++ lid ++ ", week " ++ week
        else
          strFold matchupGroupBlock ("🏈 Week " ++ week ++ " Matchups:\n\n")
            (groupMatchups matchups))

/-- Playoff bracket match object (lines 274-286 / 311-327).  `t1`/`t2` render
with a `"TBD"` default; `w` distinguishes an absent key (default `"TBD"`,
no winner line) from a present `null` (also no winner line) and a value. -/
structure BracketMatch where
  r : Option String
  m : Option String
  t1 : Option String
  t2 : Option String
  w : Option (Option String)
  p : Option String
deriving DecidableEq

/-- One winners-bracket match block (lines 274-286). -/
def winnersMatchBlock (mt : BracketMatch) : String :=
  "Round " ++ mt.r.getD "N/A" ++ ", Match " ++ mt.m.getD "N/A" ++ ":\n"
  ++ "  Team 1: Roster " ++ mt.t1.getD "TBD" ++ "\n"
  ++ "  Team 2: Roster " ++ mt.t2.getD "TBD" ++ "\n"
  ++ (match mt.w with
      | some (some v) => "  Winner: Roster " ++ v ++ "\n"
      | _ => "")
  ++ "\n"

/-- `get_winners_bracket` (lines 257-291). -/
def get_winners_bracket (league_id cfg : String)
    (o : FetchOutcome (List BracketMatch)) : ToolRun :=
  let lid := resolveLid league_id cfg
  if lid = "" then
    ⟨[], "❌ Error: League ID is required (provide league_id or set SLEEPER_LEAGUE_ID environment variable)"⟩
  else
    runFetch (BASE_URL ++ "/league/" ++ lid ++ "/winners_bracket") o
      (fun bracket =>
        if bracket.isEmpty then "📭 No playoff bracket found for league " ++ lid
        else strFold winnersMatchBlock "🏆 Winners Bracket:\n\n" bracket)

/-- One losers-bracket match block (lines 311-327); `p = some v` is a truthy
placement value (`match.get("p", "")` defaults to the falsy `""`). -/
def losersMatchBlock (mt : BracketMatch) : String :=
  "Round " ++ mt.r.getD "N/A" ++ ", Match " ++ mt.m.getD "N/A"
  ++ (match mt.p with
      | some v => " (for place " ++ v ++ ")"
      | none => "")
  ++ ":\n"
  ++ "  Team 1: Roster " ++ mt.t1.getD "TBD" ++ "\n"
  ++ "  Team 2: Roster " ++ mt.t2.getD "TBD" ++ "\n"
  ++ (match mt.w with
      | some (some v) => "  Winner: Roster " ++ v ++ "\n"
      | _ => "")
  ++ "\n"

/-- `get_losers_bracket` (lines 294-332). -/
def get_losers_bracket (league_id cfg : String)
    (o : FetchOutcome (List BracketMatch)) : ToolRun :=
  let lid := resolveLid league_id cfg
  if lid = "" then
    ⟨[], "❌ Error: League ID is required (provide league_id or set SLEEPER_LEAGUE_ID environment variable)"⟩
  else
    runFetch (BASE_URL ++ "/league/" ++ lid ++ "/losers_bracket") o
      (fun bracket =>
        if bracket.isEmpty then "📭 No losers bracket found for league " ++ lid
        else strFold losersMatchBlock "🎯 Losers Bracket:\n\n" bracket)

/-- Transaction object (lines 356-373).  `adds`/`drops` are the pid-to-roster
items of the corresponding dicts (empty list = absent/falsy), `draft_picks`
is the length of the `draft_picks` list (`0` = absent/falsy). -/
structure Txn where
  type : Option String
  status : Option String
  adds : List (String × String)
  drops : List (String × String)
  draft_picks : Nat
deriving DecidableEq

/-- One numbered transaction block (lines 356-373). -/
def txnBlock (i : Nat) (txn : Txn) : String :=
  toString i ++ ". Type: " ++ pyUpper (txn.type.getD "unknown")
  ++ " - Status: " ++ txn.status.getD "unknown" ++ "\n"
  ++ (if txn.adds.isEmpty then ""
      else "   Adds: "
        ++ String.intercalate ", "
            (txn.adds.map (fun pr => "Player " ++ pr.1 ++ " to Roster " ++ pr.2))
        ++ "\n")
  ++ (if txn.drops.isEmpty then ""
      else "   Drops: "
        ++ String.intercalate ", "
            (txn.drops.map (fun pr => "Player " ++ pr.1 ++ " from Roster " ++ pr.2))
        ++ "\n")
  ++ (if txn.draft_picks = 0 then ""
      else "   Draft Picks: " ++ toString txn.draft_picks ++ " pick(s) involved\n")
  ++ "\n"

/-- `get_league_transactions` (lines 335-378). -/
def get_league_transactions (league_id week cfg : String)
    (o : FetchOutcome (List Txn)) : ToolRun :=
  let lid := resolveLid league_id cfg
  if lid = "" then
    ⟨[], "❌ Error: League ID is required (provide league_id or set SLEEPER_LEAGUE_ID environment variable)"⟩
  else if pyStrip week = "" then ⟨[], "❌ Error: Week number is required"⟩
  else
    runFetch (BASE_URL ++ "/league/" ++ lid ++ "/transactions/" ++ week) o
      (fun transactions =>
        if transactions.isEmpty then
          "📭 No transactions found for league " ++ lid ++ ", week " ++ week
        else
          enumFold txnBlock
            ("💼 Week " ++ week ++ " Transactions ("
              ++ toString transactions.length ++ " total):\n\n") 1 transactions)

/-- Traded draft pick object (lines 399-409 / 609-615). -/
structure TradedPick where
  season : Option String
  round : Option String
  roster_id : Option String
  previous_owner_id : Option String
  owner_id : Option String
deriving DecidableEq

/-- One numbered traded-pick block of `get_traded_picks` (lines 399-409). -/
def tradedPickBlock (i : Nat) (pick : TradedPick) : String :=
  toString i ++ ". " ++ pick.season.getD "N/A" ++ " Round " ++ pick.round.getD "N/A" ++ "\n"
  ++ "   Original Owner: Roster " ++ pick.roster_id.getD "N/A" ++ "\n"
  ++ "   Previous Owner: Roster " ++ pick.previous_owner_id.getD "N/A" ++ "\n"
  ++ "   Current Owner: Roster " ++ pick.owner_id.getD "N/A" ++ "\n\n"

/-- `get_traded_picks` (lines 381-414). -/
def get_traded_picks (league_id cfg : String)
    (o : FetchOutcome (List TradedPick)) : ToolRun :=
  let lid := resolveLid league_id cfg
  if lid = "" then
    ⟨[], "❌ Error: League ID is required (provide league_id or set SLEEPER_LEAGUE_ID environment variable)"⟩
  else
    runFetch (BASE_URL ++ "/league/" ++ lid ++ "/traded_picks") o
      (fun picks =>
        if picks.isEmpty then "📭 No traded picks found for league " ++ lid
        else
          enumFold tradedPickBlock
            ("🔄 Traded Draft Picks (" ++ toString picks.length ++ " total):\n\n") 1 picks)

/-- NFL season-state object (lines 426-434). -/
structure NFLState where
  week : Option String
  display_week : Option String
  season : Option String
  season_type : Option String
  season_start_date : Option String
  league_season : Option String
  league_create_season : Option String
  previous_season : Option String
deriving DecidableEq

/-- `get_nfl_state` (lines 417-439); a `null` payload makes `state.get`
raise `AttributeError`, stringified by the handler. -/
def get_nfl_state (o : FetchOutcome (Option NFLState)) : ToolRun :=
  runFetch (BASE_URL ++ "/state/nfl") o
    (fun state =>
      match state with
      | none => "❌ Error: \'NoneType\' object has no attribute \'get\'"
      | some st =>
        "🏈 NFL State:\n"
        ++ "- Current Week: " ++ st.week.getD "N/A" ++ "\n"
        ++ "- Display Week: " ++ st.display_week.getD "N/A" ++ "\n"
        ++ "- Season: " ++ st.season.getD "N/A" ++ "\n"
        ++ "- Season Type: " ++ st.season_type.getD "N/A" ++ "\n"
        ++ "- Season Start: " ++ st.season_start_date.getD "N/A" ++ "\n"
        ++ "- League Season: " ++ st.league_season.getD "N/A" ++ "\n"
        ++ "- League Create Season: " ++ st.league_create_season.getD "N/A" ++ "\n"
        ++ "- Previous Season: " ++ st.previous_season.getD "N/A")

/-- Draft summary object of `get_user_drafts` (lines 460-465). -/
structure DraftSummary where
  draft_id : Option String
  type : Option String
  status : Option String
  league_id : Option String
  season : Option String
deriving DecidableEq

/-- One numbered draft block of `get_user_drafts` (lines 460-465). -/
def userDraftBlock (i : Nat) (draft : DraftSummary) : String :=
  toString i ++ ". Draft ID: " ++ draft.draft_id.getD "N/A" ++ "\n"
  ++ "   Type: " ++ draft.type.getD "N/A" ++ "\n"
  ++ "   Status: " ++ draft.status.getD "N/A" ++ "\n"
  ++ "   League ID: " ++ draft.league_id.getD "N/A" ++ "\n"
  ++ "   Season: " ++ draft.season.getD "N/A" ++ "\n\n"

/-- `get_user_drafts` (lines 442-470). -/
def get_user_drafts (user_id sport season : String)
    (o : FetchOutcome (List DraftSummary)) : ToolRun :=
  if pyStrip user_id = "" then ⟨[], "❌ Error: User ID is required"⟩
  else
    runFetch (BASE_URL ++ "/user/" ++ user_id ++ "/drafts/" ++ sport ++ "/" ++ season) o
      (fun drafts =>
        if drafts.isEmpty then
          "📭 No drafts found for user " ++ user_id ++ " in " ++ sport ++ " " ++ season
        else
          enumFold userDraftBlock
            ("📝 Found " ++ toString drafts.length ++ " draft(s):\n\n") 1 drafts)

/-- `draft["settings"]` fields read by `get_league_drafts` (lines 498-499). -/
structure LeagueDraftSettings where
  teams : Option String
  rounds : Option String
deriving DecidableEq

/-- `draft["metadata"]` field read by `get_league_drafts` and `get_draft`. -/
structure DraftMeta where
  scoring_type : Option String
deriving DecidableEq

/-- League draft object of `get_league_drafts` (lines 490-500). -/
structure LeagueDraft where
  draft_id : Option String
  type : Option String
  status : Option String
  season : Option String
  settings : Option LeagueDraftSettings
  metadata : Option DraftMeta
deriving DecidableEq

/-- One numbered draft block of `get_league_drafts` (lines 490-500). -/
def leagueDraftBlock (i : Nat) (draft : LeagueDraft) : String :=
  let settings := draft.settings.getD ⟨none, none⟩
  let metadata := draft.metadata.getD ⟨none⟩
  toString i ++ ". Draft ID: " ++ draft.draft_id.getD "N/A" ++ "\n"
  ++ "   Type: " ++ draft.type.getD "N/A" ++ "\n"
  ++ "   Status: " ++ draft.status.getD "N/A" ++ "\n"
  ++ "   Season: " ++ draft.season.getD "N/A" ++ "\n"
  ++ "   Teams: " ++ settings.teams.getD "N/A" ++ "\n"
  ++ "   Rounds: " ++ settings.rounds.getD "N/A" ++ "\n"
  ++ "   Scoring: " ++ metadata.scoring_type.getD "N/A" ++ "\n\n"

/-- `get_league_drafts` (lines 473-505). -/
def get_league_drafts (league_id cfg : String)
    (o : FetchOutcome (List LeagueDraft)) : ToolRun :=
  let lid := resolveLid league_id cfg
  if lid = "" then
    ⟨[], "❌ Error: League ID is required (provide league_id or set SLEEPER_LEAGUE_ID environment variable)"⟩
  else
    runFetch (BASE_URL ++ "/league/" ++ lid ++ "/drafts") o
      (fun drafts =>
        if drafts.isEmpty then "📭 No drafts found for league " ++ lid
        else
          enumFold leagueDraftBlock
            ("📝 Found " ++ toString drafts.length ++ " draft(s):\n\n") 1 drafts)

/-- `draft["settings"]` fields read by `get_draft` (lines 532-545); the
`slots_*` and the `teams`/`rounds`/`pick_timer` reads default differently
(`0` vs `"N/A"`), applied at the use sites below. -/
structure DraftSlots where
  teams : Option String
  rounds : Option String
  pick_timer : Option String
  slots_qb : Option String
  slots_rb : Option String
  slots_wr : Option String
  slots_te : Option String
  slots_flex : Option String
  slots_k : Option String
  slots_def : Option String
  slots_bn : Option String
deriving DecidableEq

/-- Detailed draft object of `get_draft` (lines 516-545). -/
structure DraftDetail where
  draft_id : Option String
  type : Option String
  status : Option String
  league_id : Option String
  season : Option String
  sport : Option String
  settings : Option DraftSlots
  metadata : Option DraftMeta
deriving DecidableEq

/-- `get_draft` (lines 508-550); a `null` payload makes `draft.get` raise
`AttributeError`, stringified by the handler. -/
def get_draft (draft_id : String) (o : FetchOutcome (Option DraftDetail)) : ToolRun :=
  if pyStrip draft_id = "" then ⟨[], "❌ Error: Draft ID is required"⟩
  else
    runFetch (BASE_URL ++ "/draft/" ++ draft_id) o
      (fun draft =>
        match draft with
        | none => "❌ Error: \'NoneType\' object has no attribute \'get\'"
        | some d =>
          let settings := d.settings.getD ⟨none, none, none, none, none, none, none, none, none, none, none⟩
          let metadata := d.metadata.getD ⟨none⟩
          "📝 Draft Details:\n"
          ++ "- Draft ID: " ++ d.draft_id.getD "N/A" ++ "\n"
          ++ "- Type: " ++ d.type.getD "N/A" ++ "\n"
          ++ "- Status: " ++ d.status.getD "N/A" ++ "\n"
          ++ "- League ID: " ++ d.league_id.getD "N/A" ++ "\n"
          ++ "- Season: " ++ d.season.getD "N/A" ++ "\n"
          ++ "- Sport: " ++ d.sport.getD "N/A" ++ "\n\n"
          ++ "⚙️ Settings:\n"
          ++ "- Teams: " ++ settings.teams.getD "N/A" ++ "\n"
          ++ "- Rounds: " ++ settings.rounds.getD "N/A" ++ "\n"
          ++ "- Pick Timer: " ++ settings.pick_timer.getD "N/A" ++ " seconds\n"
          ++ "- Scoring: " ++ metadata.scoring_type.getD "N/A" ++ "\n\n"
          ++ "📊 Roster Slots:\n"
          ++ "- QB: " ++ settings.slots_qb.getD "0" ++ "\n"
          ++ "- RB: " ++ settings.slots_rb.getD "0" ++ "\n"
          ++ "- WR: " ++ settings.slots_wr.getD "0" ++ "\n"
          ++ "- TE: " ++ settings.slots_te.getD "0" ++ "\n"
          ++ "- FLEX: " ++ settings.slots_flex.getD "0" ++ "\n"
          ++ "- K: " ++ settings.slots_k.getD "0" ++ "\n"
          ++ "- DEF: " ++ settings.slots_def.getD "0" ++ "\n"
          ++ "- BN: " ++ settings.slots_bn.getD "0")

/-- `pick["metadata"]` fields read by `get_draft_picks` (lines 571-574). -/
structure PickMeta where
  first_name : Option String
  last_name : Option String
  position : Option String
  team : Option String
deriving DecidableEq

/-- Draft pick object of `get_draft_picks` (lines 570-581). -/
structure DraftPick where
  pick_no : Option String
  round : Option String
  roster_id : Option String
  is_keeper : Bool
  metadata : Option PickMeta
deriving DecidableEq

/-- One pick block of `get_draft_picks` (lines 570-581), including the
`player_name or "Unknown"` fallback and the conditional keeper marker. -/
def pickBlock (pick : DraftPick) : String :=
  let metadata := pick.metadata.getD ⟨none, none, none, none⟩
  let player_name := pyStrip (metadata.first_name.getD "" ++ " " ++ metadata.last_name.getD "")
  "Pick " ++ pick.pick_no.getD "N/A" ++ " (Round " ++ pick.round.getD "N/A" ++ "):\n"
  ++ "  Player: " ++ (if player_name = "" then "Unknown" else player_name)
  ++ " - " ++ metadata.position.getD "N/A" ++ " (" ++ metadata.team.getD "N/A" ++ ")\n"
  ++ "  Roster ID: " ++ pick.roster_id.getD "N/A" ++ "\n"
  ++ (if pick.is_keeper then "  ⭐ Keeper\n" else "")
  ++ "\n"

/-- `get_draft_picks` (lines 553-589): header with the full count, blocks for
`picks[:50]` only, and a trailing omission line when more than 50 exist. -/
def get_draft_picks (draft_id : String) (o : FetchOutcome (List DraftPick)) : ToolRun :=
  if pyStrip draft_id = "" then ⟨[], "❌ Error: Draft ID is required"⟩
  else
    runFetch (BASE_URL ++ "/draft/" ++ draft_id ++ "/picks") o
      (fun picks =>
        if picks.isEmpty then "📭 No picks found for draft " ++ draft_id
        else
          let body := strFold pickBlock
            ("🎯 Draft Picks (" ++ toString picks.length ++ " total):\n\n")
            (picks.take 50)
          if picks.length > 50 then
            body ++ "... and " ++ toString (picks.length - 50) ++ " more picks\n"
          else body)

/-- One numbered traded-pick block of `get_draft_traded_picks` (lines 609-615). -/
def draftTradedPickBlock (i : Nat) (pick : TradedPick) : String :=
  toString i ++ ". " ++ pick.season.getD "N/A" ++ " Round " ++ pick.round.getD "N/A" ++ "\n"
  ++ "   Original: Roster " ++ pick.roster_id.getD "N/A" ++ "\n"
  ++ "   Previous: Roster " ++ pick.previous_owner_id.getD "N/A" ++ "\n"
  ++ "   Current: Roster " ++ pick.owner_id.getD "N/A" ++ "\n\n"

/-- `get_draft_traded_picks` (lines 592-620). -/
def get_draft_traded_picks (draft_id : String)
    (o : FetchOutcome (List TradedPick)) : ToolRun :=
  if pyStrip draft_id = "" then ⟨[], "❌ Error: Draft ID is required"⟩
  else
    runFetch (BASE_URL ++ "/draft/" ++ draft_id ++ "/traded_picks") o
      (fun picks =>
        if picks.isEmpty then "📭 No traded picks found for draft " ++ draft_id
        else
          enumFold draftTradedPickBlock
            ("🔄 Traded Draft Picks (" ++ toString picks.length ++ " total):\n\n") 1 picks)

/-- Trending player entry (lines 649-650). -/
structure TrendPlayer where
  player_id : Option String
  count : Option String
deriving DecidableEq

/-- `lookback = int(lookback_hours) if lookback_hours.strip() else 24` (line 634). -/
def pyLookback (lookback_hours : String) : Option Int :=
  if pyStrip lookback_hours ≠ "" then pyInt lookback_hours else some 24

/-- `lim = int(limit) if limit.strip() else 25` (line 635). -/
def pyLimit (limit : String) : Option Int :=
  if pyStrip limit ≠ "" then pyInt limit else some 25

/-- One numbered trending-player line (lines 649-650). -/
def trendLine (trend_type : String) (i : Nat) (player : TrendPlayer) : String :=
  toString i ++ ". Player ID: " ++ player.player_id.getD "N/A" ++ " - "
  ++ player.count.getD "0" ++ " " ++ trend_type ++ "s\n"

/-- `get_trending_players` (lines 623-655): enum check on `trend_type`, then
numeric parsing of `lookback_hours`/`limit` (a `ValueError` from either is
reported before any request), then the fetch. -/
def get_trending_players (trend_type lookback_hours limit : String)
    (o : FetchOutcome (List TrendPlayer)) : ToolRun :=
  if trend_type = "add" ∨ trend_type = "drop" then
    match pyLookback lookback_hours, pyLimit limit with
    | some lookback, some lim =>
      runFetch (BASE_URL ++ "/players/nfl/trending/" ++ trend_type
          ++ "?lookback_hours=" ++ toString lookback ++ "&limit=" ++ toString lim) o
        (fun players =>
          if players.isEmpty then "📭 No trending " ++ trend_type ++ " players found"
          else
            let emoji := if trend_type = "add" then "📈" else "📉"
            enumFold (trendLine trend_type)
              (emoji ++ " Trending " ++ pyUpper trend_type ++ " Players (Last "
                ++ toString lookback ++ " hours):\n\n") 1 players)
    | _, _ => ⟨[], "❌ Error: lookback_hours and limit must be valid numbers"⟩
  else ⟨[], "❌ Error: trend_type must be \'add\' or \'drop\'"⟩

/-- A JSON value stored under a player id in the `/players/nfl` directory,
with just enough shape to mirror Python truthiness on it: `null`, an empty
object, the empty string, or a (truthy) populated player object. -/
structure PlayerData where
  first_name : Option String
  last_name : Option String
  position : Option String
  team : Option String
  number : Option String
  status : Option String
  age : Option String
  height : Option String
  weight : Option String
  college : Option String
  years_exp : Option String
  fantasy_positions : Option (List String)
  injury_status : Option String
deriving DecidableEq

inductive PVal where
  | pnull
  | pemptyObj
  | pemptyStr
  | pplayer (p : PlayerData)
deriving DecidableEq

/-- Python truthiness of a directory value (`if not player`). -/
def pvalTruthy : PVal → Bool
  | .pplayer _ => true
  | _ => false

/-- Truthiness of `player.get("injury_status")` (line 687). -/
def truthyOptStr : Option String → Bool
  | some s => s ≠ ""
  | none => false

/-- The player report of `search_player_info` (lines 674-688). -/
def playerReport (player_id : String) (p : PlayerData) : String :=
  let base :=
    "🏈 Player: " ++ p.first_name.getD "" ++ " " ++ p.last_name.getD "" ++ "\n"
    ++ "- Player ID: " ++ player_id ++ "\n"
    ++ "- Position: " ++ p.position.getD "N/A" ++ "\n"
    ++ "- Team: " ++ p.team.getD "N/A" ++ "\n"
    ++ "- Number: #" ++ p.number.getD "N/A" ++ "\n"
    ++ "- Status: " ++ p.status.getD "N/A" ++ "\n"
    ++ "- Age: " ++ p.age.getD "N/A" ++ "\n"
    ++ "- Height: " ++ p.height.getD "N/A" ++ "\n"
    ++ "- Weight: " ++ p.weight.getD "N/A" ++ "\n"
    ++ "- College: " ++ p.college.getD "N/A" ++ "\n"
    ++ "- Years Exp: " ++ p.years_exp.getD "N/A" ++ "\n"
    ++ "- Fantasy Positions: " ++ String.intercalate ", " (p.fantasy_positions.getD [])
  if truthyOptStr p.injury_status then
    base ++ "\n⚠️ Injury Status: " ++ p.injury_status.getD "N/A"
  else base

/-- `search_player_info` (lines 658-693): fetch the whole directory, look up
the raw `player_id` key, and treat an absent key or a falsy value as the
"not found" outcome. -/
def search_player_info (player_id : String)
    (o : FetchOutcome (List (String × PVal))) : ToolRun :=
  if pyStrip player_id = "" then ⟨[], "❌ Error: Player ID is required"⟩
  else
    runFetch (BASE_URL ++ "/players/nfl") o
      (fun all_players =>
        match all_players.lookup player_id with
        | none => "❌ Player ID " ++ player_id ++ " not found"
        | some v =>
          match v with
          | .pplayer p => playerReport player_id p
          | _ => "❌ Player ID " ++ player_id ++ " not found")

/-- Keys of the ordered `matchup_dict`, in insertion order. -/
def mkeys (d : List (Option Int × List MatchupEntry)) : List (Option Int) :=
  d.map Prod.fst

/-- First-appearance grouping, stated recursively: the first entry opens the
first group, which collects every entry sharing its `matchup_id` in original
order; the remaining entries are grouped the same way. -/
def groupSpec : List MatchupEntry → List (Option Int × List MatchupEntry)
  | [] => []
  | m :: rest =>
    (m.matchup_id, m :: rest.filter (fun x => x.matchup_id = m.matchup_id)) ::
      groupSpec (rest.filter (fun x => x.matchup_id ≠ m.matchup_id))
termination_by l => l.length
decreasing_by
  simp only [List.length_cons]
  exact Nat.lt_succ_of_le (List.length_filter_le _ _)

theorem addToGroup_of_not_mem (mid : Option Int) (m : MatchupEntry) :
    ∀ acc : List (Option Int × List MatchupEntry), mid ∉ mkeys acc →
      addToGroup acc mid m = acc ++ [(mid, [m])] := by
  intro acc
  induction acc with
  | nil => intro _; rfl
  | cons hd tl ih =>
    obtain ⟨k, g⟩ := hd
    intro h
    simp only [mkeys, List.map_cons, List.mem_cons, not_or] at h
    simp only [addToGroup, if_neg (Ne.symm h.1), List.cons_append]
    rw [ih h.2]

theorem addToGroup_of_mem (mid : Option Int) (m : MatchupEntry) :
    ∀ acc : List (Option Int × List MatchupEntry), (mkeys acc).Nodup → mid ∈ mkeys acc →
      addToGroup acc mid m
        = acc.map (fun p => if p.1 = mid then (p.1, p.2 ++ [m]) else p) := by
  intro acc
  induction acc with
  | nil => intro _ h; simp [mkeys] at h
  | cons hd tl ih =>
    obtain ⟨k, g⟩ := hd
    intro hnd hm
    simp only [mkeys, List.map_cons, List.nodup_cons] at hnd
    by_cases hk : k = mid
    · subst hk
      simp only [addToGroup, List.map_cons, eq_self_iff_true, if_true]
      congr 1
      have hid : ∀ p ∈ tl, (if p.1 = k then (p.1, p.2 ++ [m]) else p) = p := by
        intro p hp
        have hne : p.1 ≠ k := by
          intro he
          exact hnd.1 (he ▸ List.mem_map.mpr ⟨p, hp, rfl⟩)
        rw [if_neg hne]
      rw [List.map_congr_left hid]; simp
    · have hm' : mid ∈ mkeys tl := by
        simp only [mkeys, List.map_cons, List.mem_cons] at hm
        exact hm.resolve_left (fun he => hk he.symm)
      simp only [addToGroup, if_neg hk, List.map_cons]
      rw [ih hnd.2 hm']

theorem filter_filter_imp (p q : α → Bool) (h : ∀ x, p x = true → q x = true) :
    ∀ l : List α, (l.filter q).filter p = l.filter p := by
  intro l
  induction l with
  | nil => rfl
  | cons a t ih =>
    by_cases hq : q a
    · by_cases hp : p a <;> simp [List.filter_cons, hq, hp, ih]
    · have hp : ¬ p a = true := fun hpa => hq (h a hpa)
      simp [List.filter_cons, hq, hp, ih]

theorem filter_and_of_filter (p q : α → Bool) :
    ∀ l : List α, (l.filter q).filter p = l.filter (fun x => p x && q x) := by
  intro l
  induction l with
  | nil => rfl
  | cons a t ih =>
    by_cases hq : q a <;> by_cases hp : p a <;>
      simp [List.filter_cons, hq, hp, ih]

/-- The group a pair collects once the remaining entries `l` are processed.  -/
def withRest (l : List MatchupEntry) (p : Option Int × List MatchupEntry) :
    Option Int × List MatchupEntry :=
  (p.1, p.2 ++ l.filter (fun x => x.matchup_id = p.1))

theorem foldl_addToGroup (l : List MatchupEntry) :
    ∀ acc, (mkeys acc).Nodup →
      l.foldl (fun d m => addToGroup d m.matchup_id m) acc
      = acc.map (withRest l)
        ++ groupSpec (l.filter (fun x => x.matchup_id ∉ mkeys acc)) := by
  induction l with
  | nil =>
    intro acc _
    simp only [List.foldl_nil, List.filter_nil, groupSpec, List.append_nil]
    symm
    have hid : ∀ p ∈ acc, withRest [] p = p := by
      intro p _
      simp [withRest]
    rw [List.map_congr_left hid]; simp
  | cons m rest ih =>
    intro acc hnd
    rw [List.foldl_cons]
    by_cases hm : m.matchup_id ∈ mkeys acc
    · rw [addToGroup_of_mem _ _ _ hnd hm]
      have hkeys : mkeys (acc.map
          (fun p => if p.1 = m.matchup_id then (p.1, p.2 ++ [m]) else p)) = mkeys acc := by
        simp only [mkeys, List.map_map]
        apply List.map_congr_left
        intro p _
        by_cases hp1 : p.1 = m.matchup_id <;> simp [hp1]
      rw [ih _ (by rw [hkeys]; exact hnd), hkeys]
      congr 1
      · rw [List.map_map]
        apply List.map_congr_left
        intro p _
        by_cases hp1 : p.1 = m.matchup_id
        · simp only [Function.comp_apply, if_pos hp1, withRest, List.filter_cons,
            decide_eq_true_eq]
          rw [if_pos hp1.symm]
          simp [List.append_assoc]
        · simp only [Function.comp_apply, if_neg hp1, withRest, List.filter_cons,
            decide_eq_true_eq]
          rw [if_neg (fun h => hp1 h.symm)]
      · congr 1
        simp [List.filter_cons, hm]
    · rw [addToGroup_of_not_mem _ _ _ hm]
      have hnd' : (mkeys (acc ++ [(m.matchup_id, [m])])).Nodup := by
        simp only [mkeys, List.map_append, List.map_cons, List.map_nil]
        rw [List.nodup_append]
        refine ⟨hnd, List.nodup_singleton _, ?_⟩
        intro a ha
        simp only [List.mem_singleton]
        intro he
        exact hm (he ▸ ha)
      rw [ih _ hnd']
      rw [List.map_append]
      have hfm : (m :: rest).filter (fun x => x.matchup_id ∉ mkeys acc)
          = m :: rest.filter (fun x => x.matchup_id ∉ mkeys acc) := by
        simp [List.filter_cons, hm]
      rw [hfm]
      have hgs : groupSpec (m :: rest.filter (fun x => x.matchup_id ∉ mkeys acc))
          = (m.matchup_id,
              m :: (rest.filter (fun x => x.matchup_id ∉ mkeys acc)).filter
                (fun x => x.matchup_id = m.matchup_id)) ::
            groupSpec ((rest.filter (fun x => x.matchup_id ∉ mkeys acc)).filter
              (fun x => x.matchup_id ≠ m.matchup_id)) := by
        simp only [groupSpec]
      rw [hgs]
      have hff1 : (rest.filter (fun x => x.matchup_id ∉ mkeys acc)).filter
          (fun x => x.matchup_id = m.matchup_id)
          = rest.filter (fun x => x.matchup_id = m.matchup_id) := by
        apply filter_filter_imp
        intro x hx
        simp only [decide_eq_true_eq] at hx
        simp only [decide_eq_true_eq]
        exact hx ▸ hm
      rw [hff1]
      have hff2 : (rest.filter (fun x => x.matchup_id ∉ mkeys acc)).filter
          (fun x => x.matchup_id ≠ m.matchup_id)
          = rest.filter (fun x =>
              decide (x.matchup_id ≠ m.matchup_id) && decide (x.matchup_id ∉ mkeys acc)) := by
        apply filter_and_of_filter
      rw [hff2]
      have harg : rest.filter (fun x => x.matchup_id ∉ mkeys (acc ++ [(m.matchup_id, [m])]))
          = rest.filter (fun x =>
              decide (x.matchup_id ≠ m.matchup_id) && decide (x.matchup_id ∉ mkeys acc)) := by
        apply List.filter_congr
        intro x _
        by_cases h1 : x.matchup_id = m.matchup_id <;>
          by_cases h2 : x.matchup_id ∈ mkeys acc <;>
            simp [mkeys, h1, h2]
      rw [harg]
      have hmap : acc.map (withRest rest) = acc.map (withRest (m :: rest)) := by
        apply List.map_congr_left
        intro p hp
        have hp1 : p.1 ≠ m.matchup_id := by
          intro he
          exact hm (he ▸ List.mem_map.mpr ⟨p, hp, rfl⟩)
        simp only [withRest, List.filter_cons, decide_eq_true_eq]
        rw [if_neg (fun h => hp1 h.symm)]
      rw [hmap]
      simp [withRest, List.append_assoc]

/-- The ordered dict built by `get_league_matchups` is exactly first-appearance
grouping. -/
theorem groupMatchups_eq_groupSpec (l : List MatchupEntry) :
    groupMatchups l = groupSpec l := by
  unfold groupMatchups
  rw [foldl_addToGroup l [] (by simp [mkeys])]
  simp [mkeys]

/-- C1: for every operation that requires a league identifier, if the explicit
`league_id` is empty after trimming and the default `SLEEPER_LEAGUE_ID` value
is empty after trimming, the operation returns the missing-parameter error
text (naming the parameter and the environment fallback) and performs zero
network calls, whatever the remote would have answered. -/
theorem c1_missing_league_id_fails_before_network (league_id cfg : String)
    (h1 : pyStrip league_id = "") (h2 : pyStrip cfg = "") :
    (∀ o : FetchOutcome (Option LeagueObj), get_league league_id cfg o
      = ⟨[], "❌ Error: League ID is required (provide league_id or set SLEEPER_LEAGUE_ID environment variable)"⟩)
    ∧ (∀ o : FetchOutcome (List Roster), get_league_rosters league_id cfg o
      = ⟨[], "❌ Error: League ID is required (provide league_id or set SLEEPER_LEAGUE_ID environment variable)"⟩)
    ∧ (∀ o : FetchOutcome (List LeagueUser), get_league_users league_id cfg o
      = ⟨[], "❌ Error: League ID is required (provide league_id or set SLEEPER_LEAGUE_ID environment variable)"⟩)
    ∧ (∀ (week : String) (o : FetchOutcome (List MatchupEntry)),
        get_league_matchups league_id week cfg o
      = ⟨[], "❌ Error: League ID is required (provide league_id or set SLEEPER_LEAGUE_ID environment variable)"⟩)
    ∧ (∀ o : FetchOutcome (List BracketMatch), get_winners_bracket league_id cfg o
      = ⟨[], "❌ Error: League ID is required (provide league_id or set SLEEPER_LEAGUE_ID environment variable)"⟩)
    ∧ (∀ o : FetchOutcome (List BracketMatch), get_losers_bracket league_id cfg o
      = ⟨[], "❌ Error: League ID is required (provide league_id or set SLEEPER_LEAGUE_ID environment variable)"⟩)
    ∧ (∀ (week : String) (o : FetchOutcome (List Txn)),
        get_league_transactions league_id week cfg o
      = ⟨[], "❌ Error: League ID is required (provide league_id or set SLEEPER_LEAGUE_ID environment variable)"⟩)
    ∧ (∀ o : FetchOutcome (List TradedPick), get_traded_picks league_id cfg o
      = ⟨[], "❌ Error: League ID is required (provide league_id or set SLEEPER_LEAGUE_ID environment variable)"⟩)
    ∧ (∀ o : FetchOutcome (List LeagueDraft), get_league_drafts league_id cfg o
      = ⟨[], "❌ Error: League ID is required (provide league_id or set SLEEPER_LEAGUE_ID environment variable)"⟩) := by
  have hr : resolveLid league_id cfg = "" := by simp [resolveLid, h1, h2]
  refine ⟨?_, ?_, ?_, ?_, ?_, ?_, ?_, ?_, ?_⟩ <;> intro o <;>
    first
    | (intro o'
       simp [get_league_matchups, get_league_transactions, hr])
    | simp [get_league, get_league_rosters, get_league_users, get_winners_bracket,
        get_losers_bracket, get_traded_picks, get_league_drafts, hr]

theorem c1_missing_league_id_fails_before_network_witness :
    get_league " " "" (.ok none)
      = ⟨[], "❌ Error: League ID is required (provide league_id or set SLEEPER_LEAGUE_ID environment variable)"⟩
    ∧ get_league_rosters " " "" (.ok [])
      = ⟨[], "❌ Error: League ID is required (provide league_id or set SLEEPER_LEAGUE_ID environment variable)"⟩
    ∧ get_league_users " " "" (.ok [])
      = ⟨[], "❌ Error: League ID is required (provide league_id or set SLEEPER_LEAGUE_ID environment variable)"⟩
    ∧ get_league_matchups " " "1" "" (.ok [])
      = ⟨[], "❌ Error: League ID is required (provide league_id or set SLEEPER_LEAGUE_ID environment variable)"⟩
    ∧ get_winners_bracket " " "" (.ok [])
      = ⟨[], "❌ Error: League ID is required (provide league_id or set SLEEPER_LEAGUE_ID environment variable)"⟩
    ∧ get_losers_bracket " " "" (.ok [])
      = ⟨[], "❌ Error: League ID is required (provide league_id or set SLEEPER_LEAGUE_ID environment variable)"⟩
    ∧ get_league_transactions " " "1" "" (.ok [])
      = ⟨[], "❌ Error: League ID is required (provide league_id or set SLEEPER_LEAGUE_ID environment variable)"⟩
    ∧ get_traded_picks " " "" (.ok [])
      = ⟨[], "❌ Error: League ID is required (provide league_id or set SLEEPER_LEAGUE_ID environment variable)"⟩
    ∧ get_league_drafts " " "" (.ok [])
      = ⟨[], "❌ Error: League ID is required (provide league_id or set SLEEPER_LEAGUE_ID environment variable)"⟩ := by
  have h := c1_missing_league_id_fails_before_network " " "" (by decide) (by decide)
  exact ⟨h.1 _, h.2.1 _, h.2.2.1 _, h.2.2.2.1 "1" _, h.2.2.2.2.1 _, h.2.2.2.2.2.1 _,
    h.2.2.2.2.2.2.1 "1" _, h.2.2.2.2.2.2.2.1 _, h.2.2.2.2.2.2.2.2 _⟩

/-- C2 fails on the code: `get_user` checks `username.strip()` for emptiness
but interpolates the raw, untrimmed `username` into the URL, so for the
argument `" u1 "` the requested URL carries `" u1 "`, which differs from the
URL built from the trimmed value `"u1"`. -/
theorem c2_raw_identifier_counterexample :
    (get_user " u1 " (.ok none)).requests = ["https://api.sleeper.app/v1/user/ u1 "]
    ∧ pyStrip " u1 " = "u1"
    ∧ ("https://api.sleeper.app/v1/user/ u1 " : String)
        ≠ "https://api.sleeper.app/v1/user/" ++ pyStrip " u1 " := by
  refine ⟨by decide, by decide, by decide⟩

/-- C2 amended: string inputs are trimmed only for the emptiness check; the
username, user id and draft id are passed into the URL path as the raw
argument (verbatim, untrimmed), the player-directory lookup keys on the raw
player id, and only the league identifier is trimmed before use (the URL
carries `resolveLid`, the trimmed explicit argument or trimmed default). -/
theorem c2_amended_identifiers_passed_raw :
    (∀ (u : String) (o : FetchOutcome (Option UserObj)), pyStrip u ≠ "" →
      (get_user u o).requests = [BASE_URL ++ "/user/" ++ u])
    ∧ (∀ (uid sp se : String) (o : FetchOutcome (List (Option LeagueObj))), pyStrip uid ≠ "" →
      (get_user_leagues uid sp se o).requests
        = [BASE_URL ++ "/user/" ++ uid ++ "/leagues/" ++ sp ++ "/" ++ se])
    ∧ (∀ (uid sp se : String) (o : FetchOutcome (List DraftSummary)), pyStrip uid ≠ "" →
      (get_user_drafts uid sp se o).requests
        = [BASE_URL ++ "/user/" ++ uid ++ "/drafts/" ++ sp ++ "/" ++ se])
    ∧ (∀ (did : String) (o : FetchOutcome (Option DraftDetail)), pyStrip did ≠ "" →
      (get_draft did o).requests = [BASE_URL ++ "/draft/" ++ did])
    ∧ (∀ (did : String) (o : FetchOutcome (List DraftPick)), pyStrip did ≠ "" →
      (get_draft_picks did o).requests = [BASE_URL ++ "/draft/" ++ did ++ "/picks"])
    ∧ (∀ (did : String) (o : FetchOutcome (List TradedPick)), pyStrip did ≠ "" →
      (get_draft_traded_picks did o).requests
        = [BASE_URL ++ "/draft/" ++ did ++ "/traded_picks"])
    ∧ (∀ (lid cfg : String) (o : FetchOutcome (Option LeagueObj)), resolveLid lid cfg ≠ "" →
      (get_league lid cfg o).requests = [BASE_URL ++ "/league/" ++ resolveLid lid cfg])
    ∧ (∀ (lid w cfg : String) (o : FetchOutcome (List MatchupEntry)),
        resolveLid lid cfg ≠ "" → pyStrip w ≠ "" →
      (get_league_matchups lid w cfg o).requests
        = [BASE_URL ++ "/league/" ++ resolveLid lid cfg ++ "/matchups/" ++ w])
    ∧ (∀ (pid : String) (dir : List (String × PVal)) (p : PlayerData), pyStrip pid ≠ "" →
        dir.lookup pid = some (.pplayer p) →
      (search_player_info pid (.ok dir)).output = playerReport pid p) := by
  refine ⟨?_, ?_, ?_, ?_, ?_, ?_, ?_, ?_, ?_⟩
  · intro u o h; cases o <;> simp [get_user, h, runFetch]
  · intro uid sp se o h; cases o <;> simp [get_user_leagues, h, runFetch]
  · intro uid sp se o h; cases o <;> simp [get_user_drafts, h, runFetch]
  · intro did o h; cases o <;> simp [get_draft, h, runFetch]
  · intro did o h; cases o <;> simp [get_draft_picks, h, runFetch]
  · intro did o h; cases o <;> simp [get_draft_traded_picks, h, runFetch]
  · intro lid cfg o h; cases o <;> simp [get_league, h, runFetch]
  · intro lid w cfg o h hw; cases o <;> simp [get_league_matchups, h, hw, runFetch]
  · intro pid dir p h hl; simp [search_player_info, h, runFetch, hl]

theorem c2_amended_identifiers_passed_raw_witness :
    (get_user " u1 " (.ok none)).requests = [BASE_URL ++ "/user/" ++ " u1 "]
    ∧ (get_user_leagues " u2 " "nfl" "2024" (.ok [])).requests
        = [BASE_URL ++ "/user/" ++ " u2 " ++ "/leagues/" ++ "nfl" ++ "/" ++ "2024"]
    ∧ (get_user_drafts " u2 " "nfl" "2024" (.ok [])).requests
        = [BASE_URL ++ "/user/" ++ " u2 " ++ "/drafts/" ++ "nfl" ++ "/" ++ "2024"]
    ∧ (get_draft " d1 " (.ok none)).requests = [BASE_URL ++ "/draft/" ++ " d1 "]
    ∧ (get_draft_picks " d1 " (.ok [])).requests
        = [BASE_URL ++ "/draft/" ++ " d1 " ++ "/picks"]
    ∧ (get_draft_traded_picks " d1 " (.ok [])).requests
        = [BASE_URL ++ "/draft/" ++ " d1 " ++ "/traded_picks"]
    ∧ (get_league " L1 " "" (.ok none)).requests
        = [BASE_URL ++ "/league/" ++ resolveLid " L1 " ""]
    ∧ (get_league_matchups " L1 " "1" "" (.ok [])).requests
        = [BASE_URL ++ "/league/" ++ resolveLid " L1 " "" ++ "/matchups/" ++ "1"]
    ∧ (search_player_info "1234" (.ok [("1234",
        .pplayer ⟨none, none, none, none, none, none, none, none, none, none, none, none, none⟩)])).output
        = playerReport "1234" ⟨none, none, none, none, none, none, none, none, none, none, none, none, none⟩ := by
  have h := c2_amended_identifiers_passed_raw
  exact ⟨h.1 " u1 " (.ok none) (by decide),
    h.2.1 " u2 " "nfl" "2024" (.ok []) (by decide),
    h.2.2.1 " u2 " "nfl" "2024" (.ok []) (by decide),
    h.2.2.2.1 " d1 " (.ok none) (by decide),
    h.2.2.2.2.1 " d1 " (.ok []) (by decide),
    h.2.2.2.2.2.1 " d1 " (.ok []) (by decide),
    h.2.2.2.2.2.2.1 " L1 " "" (.ok none) (by decide),
    h.2.2.2.2.2.2.2.1 " L1 " "1" "" (.ok []) (by decide) (by decide),
    h.2.2.2.2.2.2.2.2 "1234" _ _ (by decide) (by decide)⟩

/-- C3: the matchup dict built by `get_league_matchups` groups entries by
`matchup_id`, groups appearing in first-appearance order of each distinct id
and members keeping their original relative order (`groupSpec`); in
particular four entries with ids `[2,1,2,1]` yield exactly two groups in the
order `[2,1]`, each with its two original members in original order. -/
theorem c3_matchup_grouping :
    (∀ l : List MatchupEntry, groupMatchups l = groupSpec l)
    ∧ groupMatchups
        [⟨some 2, some "r1", none, none, none⟩, ⟨some 1, some "r2", none, none, none⟩,
         ⟨some 2, some "r3", none, none, none⟩, ⟨some 1, some "r4", none, none, none⟩]
      = [(some 2, [⟨some 2, some "r1", none, none, none⟩, ⟨some 2, some "r3", none, none, none⟩]),
         (some 1, [⟨some 1, some "r2", none, none, none⟩, ⟨some 1, some "r4", none, none, none⟩])] :=
  ⟨groupMatchups_eq_groupSpec, by decide⟩

/-- C5: any `trend_type` outside {"add", "drop"} makes `get_trending_players`
return the invalid-argument error with no network request, whatever the
other arguments and the remote outcome. -/
theorem c5_trend_type_outside_enum (trend_type lookback_hours limit : String)
    (o : FetchOutcome (List TrendPlayer))
    (h1 : trend_type ≠ "add") (h2 : trend_type ≠ "drop") :
    get_trending_players trend_type lookback_hours limit o
      = ⟨[], "❌ Error: trend_type must be \'add\' or \'drop\'"⟩ := by
  simp [get_trending_players, h1, h2]

theorem c5_trend_type_outside_enum_witness :
    get_trending_players "trade" "24" "25" (.ok [])
      = ⟨[], "❌ Error: trend_type must be \'add\' or \'drop\'"⟩ :=
  c5_trend_type_outside_enum "trade" "24" "25" (.ok []) (by decide) (by decide)

/-- C4: in `get_trending_players`, a `lookback_hours` that is nonempty after
trimming but not parseable as an integer yields an invalid-argument error
(naming the offending fields; the enum error takes precedence when
`trend_type` is also bad) and no network request; any `lookback_hours` that
is empty after trimming behaves exactly as `"24"`, and any `limit` that is
empty after trimming behaves exactly as `"25"`. -/
theorem c4_trending_numeric_validation (trend_type lookback_hours limit : String)
    (o : FetchOutcome (List TrendPlayer)) :
    (pyStrip lookback_hours ≠ "" → pyInt lookback_hours = none →
      (get_trending_players trend_type lookback_hours limit o).requests = []
      ∧ (get_trending_players trend_type lookback_hours limit o).output
          = (if trend_type = "add" ∨ trend_type = "drop" then
              "❌ Error: lookback_hours and limit must be valid numbers"
            else "❌ Error: trend_type must be \'add\' or \'drop\'"))
    ∧ (pyStrip lookback_hours = "" →
        get_trending_players trend_type lookback_hours limit o
          = get_trending_players trend_type "24" limit o)
    ∧ (pyStrip limit = "" →
        get_trending_players trend_type lookback_hours limit o
          = get_trending_players trend_type lookback_hours "25" o) := by
  refine ⟨?_, ?_, ?_⟩
  · intro hne hnone
    have hlb : pyLookback lookback_hours = none := by
      simp [pyLookback, hne, hnone]
    by_cases htt : trend_type = "add" ∨ trend_type = "drop"
    · rw [if_pos htt]
      constructor <;> simp [get_trending_players, htt, hlb]
    · rw [if_neg htt]
      constructor <;> simp [get_trending_players, htt]
  · intro h
    have hlb : pyLookback lookback_hours = pyLookback "24" := by
      rw [show pyLookback "24" = some 24 from rfl]
      simp [pyLookback, h]
    simp only [get_trending_players, hlb]
  · intro h
    have hlim : pyLimit limit = pyLimit "25" := by
      rw [show pyLimit "25" = some 25 from rfl]
      simp [pyLimit, h]
    simp only [get_trending_players, hlim]

theorem c4_trending_numeric_validation_witness :
    (get_trending_players "add" "abc" "25" (.ok [])).requests = []
    ∧ (get_trending_players "add" "abc" "25" (.ok [])).output
        = "❌ Error: lookback_hours and limit must be valid numbers"
    ∧ get_trending_players "add" " " "25" (.ok [])
        = get_trending_players "add" "24" "25" (.ok [])
    ∧ get_trending_players "add" "24" " " (.ok [])
        = get_trending_players "add" "24" "25" (.ok []) := by
  have h := c4_trending_numeric_validation "add" "abc" "25" (.ok [])
  have h1 := h.1 (by decide) (by decide)
  exact ⟨h1.1, by rw [h1.2]; simp,
    (c4_trending_numeric_validation "add" " " "25" (.ok [])).2.1 (by decide),
    (c4_trending_numeric_validation "add" "24" " " (.ok [])).2.2 (by decide)⟩

/-- C6: for a nonempty picks collection, `get_draft_picks` renders a header
stating the untruncated total, then the blocks of at most the first 50
picks, then a trailing omission line exactly when more than 50 exist,
counting how many were left out. -/
theorem c6_draft_picks_truncation (draft_id : String) (picks : List DraftPick)
    (h1 : pyStrip draft_id ≠ "") (h2 : picks ≠ []) :
    (get_draft_picks draft_id (.ok picks)).output
      = ("🎯 Draft Picks (" ++ toString picks.length ++ " total):\n\n"
          ++ strConcatMap pickBlock (picks.take 50))
        ++ (if picks.length > 50 then
              "... and " ++ toString (picks.length - 50) ++ " more picks\n"
            else "")
    ∧ (picks.take 50).length = min 50 picks.length := by
  constructor
  · have he : picks.isEmpty = false := by
      cases picks with
      | nil => exact absurd rfl h2
      | cons a t => rfl
    simp only [get_draft_picks, if_neg h1, runFetch, he, Bool.false_eq_true, if_false]
    rw [strFold_eq_append]
    by_cases hlen : picks.length > 50
    · rw [if_pos hlen, if_pos hlen]
      simp [String.append_assoc]
    · rw [if_neg hlen, if_neg hlen, String.append_empty]
  · simp [List.length_take]

theorem c6_draft_picks_truncation_witness :
    (get_draft_picks "d1"
        (.ok (List.replicate 63 (⟨none, none, none, false, none⟩ : DraftPick)))).output
      = ("🎯 Draft Picks (63 total):\n\n"
          ++ strConcatMap pickBlock
              (List.replicate 50 (⟨none, none, none, false, none⟩ : DraftPick)))
        ++ "... and 13 more picks\n"
    ∧ ((List.replicate 63 (⟨none, none, none, false, none⟩ : DraftPick)).take 50).length
        = 50 := by
  have h := c6_draft_picks_truncation "d1"
    (List.replicate 63 (⟨none, none, none, false, none⟩ : DraftPick))
    (by decide) (by simp)
  constructor
  · rw [h.1]
    have e2 : (List.replicate 63 (⟨none, none, none, false, none⟩ : DraftPick)).take 50
        = List.replicate 50 (⟨none, none, none, false, none⟩ : DraftPick) := by
      simp [List.take_replicate]
    rw [e2]
    simp only [List.length_replicate]
    rw [if_pos (by norm_num)]
    rw [show ("... and " ++ toString ((63 : Nat) - 50) ++ " more picks\n")
        = "... and 13 more picks\n" from by decide]
    congr 2
  · decide

/-- C7: the starters line rendered for a roster (and for a matchup team)
lists at most the first 5 starters and carries the `"..."` marker exactly
when more than 5 exist; with 7 starters exactly the first 5 are shown
followed by the marker, with 3 starters no marker appears. -/
theorem c7_starters_truncation :
    (∀ (roster : Roster) (index : Nat), ∃ pre,
      format_roster roster index
        = pre ++ String.intercalate ", " ((roster.starters.getD []).take 5)
          ++ (if (roster.starters.getD []).length > 5 then "..." else ""))
    ∧ (∀ team : MatchupEntry, ∃ pre,
      teamBlock team
        = pre ++ String.intercalate ", " ((team.starters.getD []).take 5)
          ++ ((if (team.starters.getD []).length > 5 then "..." else "") ++ "\n"))
    ∧ (∀ l : List String, (l.take 5).length ≤ 5)
    ∧ (∀ l : List String, ((if l.length > 5 then "..." else "") = "..." ↔ l.length > 5))
    ∧ format_roster ⟨none, none, none, none, some ["A", "B", "C", "D", "E", "F", "G"]⟩ 0
        = "📊 Roster 1 (ID: N/A)\n- Owner: N/A\n- Record: 0W - 0L - 0T\n- Points For: 0.0\n- Points Against: 0.0\n- Players: 0 total\n- Starters: A, B, C, D, E..."
    ∧ format_roster ⟨none, none, none, none, some ["A", "B", "C"]⟩ 0
        = "📊 Roster 1 (ID: N/A)\n- Owner: N/A\n- Record: 0W - 0L - 0T\n- Points For: 0.0\n- Points Against: 0.0\n- Players: 0 total\n- Starters: A, B, C" := by
  refine ⟨?_, ?_, ?_, ?_, by decide, by decide⟩
  · intro roster index
    refine ⟨"📊 Roster " ++ toString (index + 1) ++ " (ID: " ++ roster.roster_id.getD "N/A"
      ++ ")\n" ++ "- Owner: " ++ roster.owner_id.getD "N/A" ++ "\n"
      ++ "- Record: "
      ++ (roster.settings.getD ⟨none, none, none, none, none, none, none⟩).wins.getD "0"
      ++ "W - "
      ++ (roster.settings.getD ⟨none, none, none, none, none, none, none⟩).losses.getD "0"
      ++ "L - "
      ++ (roster.settings.getD ⟨none, none, none, none, none, none, none⟩).ties.getD "0"
      ++ "T\n"
      ++ "- Points For: "
      ++ (roster.settings.getD ⟨none, none, none, none, none, none, none⟩).fpts.getD "0"
      ++ "."
      ++ (roster.settings.getD ⟨none, none, none, none, none, none, none⟩).fpts_decimal.getD "0"
      ++ "\n"
      ++ "- Points Against: "
      ++ (roster.settings.getD ⟨none, none, none, none, none, none, none⟩).fpts_against.getD "0"
      ++ "."
      ++ (roster.settings.getD
          ⟨none, none, none, none, none, none, none⟩).fpts_against_decimal.getD "0"
      ++ "\n"
      ++ "- Players: " ++ toString (roster.players.getD []).length ++ " total\n"
      ++ "- Starters: ", ?_⟩
    simp [format_roster, String.append_assoc]
  · intro team
    refine ⟨"  Roster " ++ team.roster_id.getD "N/A" ++ ": "
      ++ (match team.custom_points with
          | some c => c ++ " (override)"
          | none => team.points.getD "0")
      ++ " pts\n" ++ "    Starters: ", ?_⟩
    simp [teamBlock, String.append_assoc]
  · intro l
    simp only [List.length_take]
    exact min_le_left _ _
  · intro l
    by_cases h : l.length > 5 <;> simp [h]

/-- C8: whenever the remote answers a non-2xx status, every operation that
reached its fetch returns the error report carrying both the numeric status
code and the raw response body verbatim (the text
`"❌ Error: API Error <status>: <body>"`). -/
theorem c8_http_error_report (code : Nat) (body : String) :
    (∀ u : String, pyStrip u ≠ "" →
      (get_user u (.httpError code body)).output
        = "❌ Error: API Error " ++ toString code ++ ": " ++ body)
    ∧ (∀ uid sp se : String, pyStrip uid ≠ "" →
      (get_user_leagues uid sp se (.httpError code body)).output
        = "❌ Error: API Error " ++ toString code ++ ": " ++ body)
    ∧ (∀ lid cfg : String, resolveLid lid cfg ≠ "" →
      (get_league lid cfg (.httpError code body)).output
        = "❌ Error: API Error " ++ toString code ++ ": " ++ body)
    ∧ (∀ lid cfg : String, resolveLid lid cfg ≠ "" →
      (get_league_rosters lid cfg (.httpError code body)).output
        = "❌ Error: API Error " ++ toString code ++ ": " ++ body)
    ∧ (∀ lid cfg : String, resolveLid lid cfg ≠ "" →
      (get_league_users lid cfg (.httpError code body)).output
        = "❌ Error: API Error " ++ toString code ++ ": " ++ body)
    ∧ (∀ lid w cfg : String, resolveLid lid cfg ≠ "" → pyStrip w ≠ "" →
      (get_league_matchups lid w cfg (.httpError code body)).output
        = "❌ Error: API Error " ++ toString code ++ ": " ++ body)
    ∧ (∀ lid cfg : String, resolveLid lid cfg ≠ "" →
      (get_winners_bracket lid cfg (.httpError code body)).output
        = "❌ Error: API Error " ++ toString code ++ ": " ++ body)
    ∧ (∀ lid cfg : String, resolveLid lid cfg ≠ "" →
      (get_losers_bracket lid cfg (.httpError code body)).output
        = "❌ Error: API Error " ++ toString code ++ ": " ++ body)
    ∧ (∀ lid w cfg : String, resolveLid lid cfg ≠ "" → pyStrip w ≠ "" →
      (get_league_transactions lid w cfg (.httpError code body)).output
        = "❌ Error: API Error " ++ toString code ++ ": " ++ body)
    ∧ (∀ lid cfg : String, resolveLid lid cfg ≠ "" →
      (get_traded_picks lid cfg (.httpError code body)).output
        = "❌ Error: API Error " ++ toString code ++ ": " ++ body)
    ∧ (get_nfl_state (.httpError code body)).output
        = "❌ Error: API Error " ++ toString code ++ ": " ++ body
    ∧ (∀ uid sp se : String, pyStrip uid ≠ "" →
      (get_user_drafts uid sp se (.httpError code body)).output
        = "❌ Error: API Error " ++ toString code ++ ": " ++ body)
    ∧ (∀ lid cfg : String, resolveLid lid cfg ≠ "" →
      (get_league_drafts lid cfg (.httpError code body)).output
        = "❌ Error: API Error " ++ toString code ++ ": " ++ body)
    ∧ (∀ did : String, pyStrip did ≠ "" →
      (get_draft did (.httpError code body)).output
        = "❌ Error: API Error " ++ toString code ++ ": " ++ body)
    ∧ (∀ did : String, pyStrip did ≠ "" →
      (get_draft_picks did (.httpError code body)).output
        = "❌ Error: API Error " ++ toString code ++ ": " ++ body)
    ∧ (∀ did : String, pyStrip did ≠ "" →
      (get_draft_traded_picks did (.httpError code body)).output
        = "❌ Error: API Error " ++ toString code ++ ": " ++ body)
    ∧ (∀ tt lb lim : String, (tt = "add" ∨ tt = "drop") →
        pyLookback lb ≠ none → pyLimit lim ≠ none →
      (get_trending_players tt lb lim (.httpError code body)).output
        = "❌ Error: API Error " ++ toString code ++ ": " ++ body)
    ∧ (∀ pid : String, pyStrip pid ≠ "" →
      (search_player_info pid (.httpError code body)).output
        = "❌ Error: API Error " ++ toString code ++ ": " ++ body)
    ∧ (∃ pre mid suf, ("❌ Error: API Error " ++ toString code ++ ": " ++ body : String)
        = pre ++ toString code ++ mid ++ body ++ suf) := by
  refine ⟨?_, ?_, ?_, ?_, ?_, ?_, ?_, ?_, ?_, ?_, ?_, ?_, ?_, ?_, ?_, ?_, ?_, ?_, ?_⟩
  · intro u h; simp [get_user, h, runFetch]
  · intro uid sp se h; simp [get_user_leagues, h, runFetch]
  · intro lid cfg h; simp [get_league, h, runFetch]
  · intro lid cfg h; simp [get_league_rosters, h, runFetch]
  · intro lid cfg h; simp [get_league_users, h, runFetch]
  · intro lid w cfg h hw; simp [get_league_matchups, h, hw, runFetch]
  · intro lid cfg h; simp [get_winners_bracket, h, runFetch]
  · intro lid cfg h; simp [get_losers_bracket, h, runFetch]
  · intro lid w cfg h hw; simp [get_league_transactions, h, hw, runFetch]
  · intro lid cfg h; simp [get_traded_picks, h, runFetch]
  · simp [get_nfl_state, runFetch]
  · intro uid sp se h; simp [get_user_drafts, h, runFetch]
  · intro lid cfg h; simp [get_league_drafts, h, runFetch]
  · intro did h; simp [get_draft, h, runFetch]
  · intro did h; simp [get_draft_picks, h, runFetch]
  · intro did h; simp [get_draft_traded_picks, h, runFetch]
  · intro tt lb lim htt hlb hlim
    obtain ⟨a, ha⟩ := Option.ne_none_iff_exists'.mp hlb
    obtain ⟨b, hb⟩ := Option.ne_none_iff_exists'.mp hlim
    simp [get_trending_players, htt, ha, hb, runFetch]
  · intro pid h; simp [search_player_info, h, runFetch]
  · exact ⟨"❌ Error: API Error ", ": ", "", by rw [String.append_empty]⟩

theorem c8_http_error_report_witness :
    (get_league "L1" "" (.httpError 404 "league not found")).output
      = "❌ Error: API Error " ++ toString 404 ++ ": " ++ "league not found"
    ∧ (get_user "u1" (.httpError 404 "league not found")).output
      = "❌ Error: API Error " ++ toString 404 ++ ": " ++ "league not found"
    ∧ (get_user_leagues "u1" "nfl" "2024" (.httpError 404 "league not found")).output
      = "❌ Error: API Error " ++ toString 404 ++ ": " ++ "league not found"
    ∧ (get_league_rosters "L1" "" (.httpError 404 "league not found")).output
      = "❌ Error: API Error " ++ toString 404 ++ ": " ++ "league not found"
    ∧ (get_league_users "L1" "" (.httpError 404 "league not found")).output
      = "❌ Error: API Error " ++ toString 404 ++ ": " ++ "league not found"
    ∧ (get_league_matchups "L1" "1" "" (.httpError 404 "league not found")).output
      = "❌ Error: API Error " ++ toString 404 ++ ": " ++ "league not found"
    ∧ (get_winners_bracket "L1" "" (.httpError 404 "league not found")).output
      = "❌ Error: API Error " ++ toString 404 ++ ": " ++ "league not found"
    ∧ (get_losers_bracket "L1" "" (.httpError 404 "league not found")).output
      = "❌ Error: API Error " ++ toString 404 ++ ": " ++ "league not found"
    ∧ (get_league_transactions "L1" "1" "" (.httpError 404 "league not found")).output
      = "❌ Error: API Error " ++ toString 404 ++ ": " ++ "league not found"
    ∧ (get_traded_picks "L1" "" (.httpError 404 "league not found")).output
      = "❌ Error: API Error " ++ toString 404 ++ ": " ++ "league not found"
    ∧ (get_nfl_state (.httpError 404 "league not found")).output
      = "❌ Error: API Error " ++ toString 404 ++ ": " ++ "league not found"
    ∧ (get_user_drafts "u1" "nfl" "2024" (.httpError 404 "league not found")).output
      = "❌ Error: API Error " ++ toString 404 ++ ": " ++ "league not found"
    ∧ (get_league_drafts "L1" "" (.httpError 404 "league not found")).output
      = "❌ Error: API Error " ++ toString 404 ++ ": " ++ "league not found"
    ∧ (get_draft "d1" (.httpError 404 "league not found")).output
      = "❌ Error: API Error " ++ toString 404 ++ ": " ++ "league not found"
    ∧ (get_draft_picks "d1" (.httpError 404 "league not found")).output
      = "❌ Error: API Error " ++ toString 404 ++ ": " ++ "league not found"
    ∧ (get_draft_traded_picks "d1" (.httpError 404 "league not found")).output
      = "❌ Error: API Error " ++ toString 404 ++ ": " ++ "league not found"
    ∧ (get_trending_players "add" "24" "25" (.httpError 404 "league not found")).output
      = "❌ Error: API Error " ++ toString 404 ++ ": " ++ "league not found"
    ∧ (search_player_info "1234" (.httpError 404 "league not found")).output
      = "❌ Error: API Error " ++ toString 404 ++ ": " ++ "league not found" := by
  have h := c8_http_error_report 404 "league not found"
  exact ⟨h.2.2.1 "L1" "" (by decide), h.1 "u1" (by decide),
    h.2.1 "u1" "nfl" "2024" (by decide),
    h.2.2.2.1 "L1" "" (by decide),
    h.2.2.2.2.1 "L1" "" (by decide),
    h.2.2.2.2.2.1 "L1" "1" "" (by decide) (by decide),
    h.2.2.2.2.2.2.1 "L1" "" (by decide),
    h.2.2.2.2.2.2.2.1 "L1" "" (by decide),
    h.2.2.2.2.2.2.2.2.1 "L1" "1" "" (by decide) (by decide),
    h.2.2.2.2.2.2.2.2.2.1 "L1" "" (by decide),
    h.2.2.2.2.2.2.2.2.2.2.1,
    h.2.2.2.2.2.2.2.2.2.2.2.1 "u1" "nfl" "2024" (by decide),
    h.2.2.2.2.2.2.2.2.2.2.2.2.1 "L1" "" (by decide),
    h.2.2.2.2.2.2.2.2.2.2.2.2.2.1 "d1" (by decide),
    h.2.2.2.2.2.2.2.2.2.2.2.2.2.2.1 "d1" (by decide),
    h.2.2.2.2.2.2.2.2.2.2.2.2.2.2.2.1 "d1" (by decide),
    h.2.2.2.2.2.2.2.2.2.2.2.2.2.2.2.2.1 "add" "24" "25" (Or.inl rfl)
      (by decide) (by decide),
    h.2.2.2.2.2.2.2.2.2.2.2.2.2.2.2.2.2.1 "1234" (by decide)⟩

/-- C9: in `search_player_info`, a player id absent from the fetched
directory mapping yields the distinct "not found" message naming that id —
even when the directory is completely empty — never a generic
empty-collection message. -/
theorem c9_player_absent_key_not_found (player_id : String)
    (dir : List (String × PVal))
    (h1 : pyStrip player_id ≠ "") (h2 : dir.lookup player_id = none) :
    (search_player_info player_id (.ok dir)).output
      = "❌ Player ID " ++ player_id ++ " not found"
    ∧ (search_player_info player_id (.ok [])).output
      = "❌ Player ID " ++ player_id ++ " not found" := by
  constructor
  · simp [search_player_info, h1, runFetch, h2]
  · simp [search_player_info, h1, runFetch]

theorem c9_player_absent_key_not_found_witness :
    (search_player_info "9999" (.ok [("1234",
        .pplayer ⟨none, none, none, none, none, none, none, none, none, none, none, none, none⟩)])).output
      = "❌ Player ID " ++ "9999" ++ " not found"
    ∧ (search_player_info "9999" (.ok [])).output
      = "❌ Player ID " ++ "9999" ++ " not found" :=
  c9_player_absent_key_not_found "9999" _ (by decide) (by decide)

/-- C10: in `search_player_info`, a player id whose directory entry exists
but is falsy (JSON null, empty object or empty string) yields the same
"not found" message as an absent key, not a player report. -/
theorem c10_player_falsy_value_not_found (player_id : String)
    (dir : List (String × PVal)) (v : PVal)
    (h1 : pyStrip player_id ≠ "") (h2 : dir.lookup player_id = some v)
    (h3 : pvalTruthy v = false) :
    (search_player_info player_id (.ok dir)).output
      = "❌ Player ID " ++ player_id ++ " not found" := by
  simp only [search_player_info, if_neg h1, runFetch, h2]
  cases v with
  | pplayer p => simp [pvalTruthy] at h3
  | pnull => rfl
  | pemptyObj => rfl
  | pemptyStr => rfl

theorem c10_player_falsy_value_not_found_witness :
    (search_player_info "1234" (.ok [("1234", .pnull)])).output
      = "❌ Player ID " ++ "1234" ++ " not found"
    ∧ (search_player_info "1234" (.ok [("1234", .pemptyObj)])).output
      = "❌ Player ID " ++ "1234" ++ " not found"
    ∧ (search_player_info "1234" (.ok [("1234", .pemptyStr)])).output
      = "❌ Player ID " ++ "1234" ++ " not found" :=
  ⟨c10_player_falsy_value_not_found "1234" _ .pnull (by decide) (by decide) (by decide),
   c10_player_falsy_value_not_found "1234" _ .pemptyObj (by decide) (by decide) (by decide),
   c10_player_falsy_value_not_found "1234" _ .pemptyStr (by decide) (by decide) (by decide)⟩
